import Mathlib

/-!
Shallow embedding of the `wasm-pack-dev-toolchain` example crate
(`src/example/src/lib.rs` and `src/example/tests/web.rs`).

The crate exports two functions across the wasm-bindgen boundary:

* `greet(name: &str) -> JsValue` returns `JsValue::from(format!("Hello, {}!", name))`;
* `add(a: i32, b: i32) -> JsValue` returns `JsValue::from(a + b)`.

Host-side values (`JsValue`) are modelled as a sum of a string payload and a
numeric payload.  JavaScript numbers are IEEE-754 binary64; every value the
crate ever stores in a numeric `JsValue` is a signed 32-bit integer, and every
such integer is exactly representable in binary64, so the numeric payload is
modelled by the exact integer it denotes.  `i32` arithmetic is modelled on `Int`
with explicit two's-complement wraparound modulo `2^32` (the native overflow
semantics of a 32-bit signed add on the wasm target).
-/

namespace WasmExample

/-- The signed 32-bit minimum, `i32::MIN = -2^31`. -/
def i32Min : Int := -(2 ^ 31)

/-- The signed 32-bit maximum, `i32::MAX = 2^31 - 1`. -/
def i32Max : Int := 2 ^ 31 - 1

/-- `x` is representable as a signed 32-bit integer. -/
def inI32 (x : Int) : Prop := i32Min ≤ x ∧ x ≤ i32Max

instance (x : Int) : Decidable (inI32 x) := by
  unfold inI32
  infer_instance

/-- Two's-complement wraparound of an integer into the signed 32-bit range,
the native overflow behaviour of a 32-bit signed add on the wasm target. -/
def wrapI32 (x : Int) : Int := (x + 2 ^ 31) % 2 ^ 32 - 2 ^ 31

/-- Model of the host-side boxed value `wasm_bindgen::JsValue`, restricted to
the two payload shapes this crate produces: a string or a number.  The numeric
payload carries the exact integer value of the binary64 number it denotes. -/
inductive JsValue where
  | str (s : String)
  | num (x : Int)
deriving DecidableEq

/-- `JsValue::as_string()`: yields the string payload, `None` otherwise. -/
def JsValue.asString : JsValue → Option String
  | .str s => some s
  | .num _ => none

/-- `JsValue::as_f64()`: yields the numeric payload, `None` otherwise.  The
payload is returned as the exact integer the binary64 value denotes. -/
def JsValue.asF64 : JsValue → Option Int
  | .num x => some x
  | .str _ => none

/-- Modelled from the spec: the host's numeric type is IEEE-754 binary64,
which is not part of `src/`.  An integer `n` is exactly representable as a
binary64 value when it factors as `m * 2^e` with `|m| < 2^53` (53-bit
significand); in particular every integer with `|n| < 2^53` is exact. -/
def f64ExactInt (n : Int) : Prop :=
  ∃ (m : Int) (e : Nat), m.natAbs < 2 ^ 53 ∧ n = m * 2 ^ e

/-- The string built by `format!("Hello, {}!", name)` in `greet`. -/
def greetStr (name : String) : String := "Hello, " ++ name ++ "!"

/-- `pub fn greet(name: &str) -> JsValue { JsValue::from(format!("Hello, {}!", name)) }`
(`src/example/src/lib.rs:3-6`). -/
def greet (name : String) : JsValue := .str (greetStr name)

/-- `pub fn add(a: i32, b: i32) -> JsValue { JsValue::from(a + b) }`
(`src/example/src/lib.rs:8-11`).  The `i32` add wraps modulo `2^32` on the
wasm target. -/
def add (a b : Int) : JsValue := .num (wrapI32 (a + b))

/-- Body of `test_greet` in `src/example/tests/web.rs:10-14`: the assertion
`result.as_string().unwrap() == "Hello, World!"` holds. -/
def test_greet : Prop := (greet "World").asString = some "Hello, World!"

/-- Body of `test_add` in `src/example/tests/web.rs:16-20`: the assertion
`result.as_f64().unwrap() == 5.0` holds. -/
def test_add : Prop := (add 2 3).asF64 = some 5

/-- C1: for every input string `name`, `greet name` is the string-valued
`JsValue` holding exactly the concatenation `"Hello, " ++ name ++ "!"` —
no truncation, no trimming. -/
theorem greet_concat (name : String) :
    greet name = JsValue.str ("Hello, " ++ name ++ "!") := rfl

/-- C2: for signed 32-bit integers `a` and `b` whose mathematical sum is also
in the signed 32-bit range, `add a b` returns exactly `a + b`. -/
theorem add_exact (a b : Int) (ha : inI32 a) (hb : inI32 b)
    (hs : inI32 (a + b)) : add a b = JsValue.num (a + b) := by
  obtain ⟨hs1, hs2⟩ := hs
  simp only [inI32, i32Min, i32Max] at hs1 hs2
  simp only [add, wrapI32, JsValue.num.injEq]
  omega

/-- Witness for C2 at the concrete input `(2, 3)`. -/
theorem add_exact_witness : add 2 3 = JsValue.num 5 :=
  add_exact 2 3 (by decide) (by decide) (by decide)

/-- C3: when the mathematical sum of two in-range signed 32-bit operands
falls outside the signed 32-bit range, `add` wraps: the returned number `r`
is congruent to `a + b` modulo `2^32` and lies in the signed 32-bit range. -/
theorem add_wrap (a b : Int) (ha : inI32 a) (hb : inI32 b)
    (ho : ¬ inI32 (a + b)) :
    ∃ r : Int, add a b = JsValue.num r ∧ (a + b - r) % 2 ^ 32 = 0 ∧ inI32 r := by
  refine ⟨wrapI32 (a + b), rfl, ?_, ?_, ?_⟩ <;>
    simp only [wrapI32, inI32, i32Min, i32Max] <;> omega

/-- Witness for C3 at the concrete overflowing input `(i32::MAX, 1)`. -/
theorem add_wrap_witness :
    ∃ r : Int, add i32Max 1 = JsValue.num r ∧
      (i32Max + 1 - r) % 2 ^ 32 = 0 ∧ inI32 r :=
  add_wrap i32Max 1 (by decide) (by decide) (by decide)

/-- C4: both functions are total — `greet` always returns a string-valued
`JsValue` and `add` always returns a number-valued `JsValue`; neither can
fail on any input. -/
theorem greet_add_total :
    (∀ name : String, ∃ s : String, greet name = JsValue.str s) ∧
    (∀ a b : Int, ∃ x : Int, add a b = JsValue.num x) :=
  ⟨fun name => ⟨greetStr name, rfl⟩, fun a b => ⟨wrapI32 (a + b), rfl⟩⟩

/-- C5: both functions are deterministic pure functions — identical inputs
yield identical outputs, with no hidden state influencing the result. -/
theorem greet_add_deterministic :
    (∀ n1 n2 : String, n1 = n2 → greet n1 = greet n2) ∧
    (∀ a1 b1 a2 b2 : Int, a1 = a2 → b1 = b2 → add a1 b1 = add a2 b2) :=
  ⟨fun n1 n2 h => h ▸ rfl, fun a1 b1 a2 b2 h1 h2 => h1 ▸ h2 ▸ rfl⟩

/-- Witness for C5 at the concrete inputs `"World"` and `(2, 3)`. -/
theorem greet_add_deterministic_witness :
    greet "World" = greet "World" ∧ add 2 3 = add 2 3 :=
  ⟨greet_add_deterministic.1 "World" "World" rfl,
   greet_add_deterministic.2 2 3 2 3 rfl rfl⟩

/-- C6: Scenario A of the browser test runner passes — `greet "World"`
extracted as a string equals `"Hello, World!"`. -/
theorem test_greet_passes : test_greet := by
  unfold test_greet
  decide

/-- C7: Scenario B of the browser test runner passes — `add 2 3` extracted
as a number at the host boundary equals `5`. -/
theorem test_add_passes : test_add := by
  unfold test_add
  decide

/-- C8: for every input string, the value returned by `greet` is
string-typed, so extracting it with `as_string()` always succeeds. -/
theorem greet_asString_some (name : String) :
    (greet name).asString = some (greetStr name) := rfl

/-- C9: for every pair of in-range signed 32-bit inputs, `add` returns a
number-valued `JsValue` whose extraction with `as_f64()` succeeds and whose
value is exactly representable as an IEEE-754 binary64 value. -/
theorem add_asF64_exact (a b : Int) (ha : inI32 a) (hb : inI32 b) :
    ∃ r : Int, (add a b).asF64 = some r ∧ f64ExactInt r := by
  refine ⟨wrapI32 (a + b), rfl, wrapI32 (a + b), 0, ?_, by ring⟩
  simp only [wrapI32]
  omega

/-- Witness for C9 at the concrete input `(2, 3)`. -/
theorem add_asF64_exact_witness :
    ∃ r : Int, (add 2 3).asF64 = some r ∧ f64ExactInt r :=
  add_asF64_exact 2 3 (by decide) (by decide)

/-- C10: `greet` is injective — distinct names always produce distinct
greetings, because the prefix `"Hello, "` and the suffix `"!"` are fixed. -/
theorem greet_injective (n1 n2 : String) (h : greet n1 = greet n2) :
    n1 = n2 := by
  simp only [greet, greetStr, JsValue.str.injEq] at h
  have hd := congrArg String.data h
  simp only [String.data_append] at hd
  exact String.ext (List.append_cancel_left (List.append_cancel_right hd))

/-- Witness for C10 at the concrete input `"World"`. -/
theorem greet_injective_witness : ("World" : String) = "World" :=
  greet_injective "World" "World" rfl

end WasmExample
